import Mathlib

/-!
Shallow embedding of the tv-wall signaling hub and broadcaster-side WebRTC
management, translated from `src/admin-view/server.js`, the two handler
variants in `src/admin-view/server.ts`, `src/admin-view/lib/webrtc.ts`, and
the viewer page `ClientView` (region-update rate limiting).

State is passed explicitly; each socket handler becomes a function
`State → input → State × List Msg` where `Msg`/`BEffect` record every
externally visible emission or side effect the handler performs.
-/

namespace TvWall

/-- A rectangle as carried on the wire and stored in client records:
`{x, y, width, height, totalWidth, totalHeight}` (the source carries the
stream geometry inside the rectangle). -/
structure Rect where
  x : Int
  y : Int
  width : Int
  height : Int
  totalWidth : Int
  totalHeight : Int
deriving DecidableEq, Repr

/-- The default region installed by `get-client-config` when no record
exists for the requested clientId (server.js lines 88-101). -/
def defaultRegion : Rect :=
  { x := 0, y := 0, width := 1920, height := 1080
    totalWidth := 1920, totalHeight := 1080 }

/-- One entry of the server's `clients` map.  `socketId = ""` models a
falsy socketId (the JS code tests `clients[clientId].socketId` for
truthiness). -/
structure ClientRecord where
  clientId : String
  socketId : String
  connected : Bool
  region : Option Rect
  displayName : Option String
deriving DecidableEq, Repr

/-- The hub's whole mutable state: the `clients` map (an insertion-ordered
object, modelled as an association list) and the `broadcaster` variable. -/
structure ServerState where
  clients : List (String × ClientRecord)
  broadcaster : Option String
deriving DecidableEq, Repr

/-- `clients[clientId]` lookup. -/
def lookupClient : List (String × ClientRecord) → String → Option ClientRecord
  | [], _ => none
  | (k, v) :: rest, cid => if k = cid then some v else lookupClient rest cid

/-- `clients[clientId] = record`: update in place when the key exists,
append otherwise (JS object insertion-order semantics). -/
def setClient : List (String × ClientRecord) → String → ClientRecord →
    List (String × ClientRecord)
  | [], cid, r => [(cid, r)]
  | (k, v) :: rest, cid, r =>
      if k = cid then (cid, r) :: rest else (k, v) :: setClient rest cid r

/-- `Object.values(clients)`, the roster sent in `clients-update`. -/
def roster (s : ServerState) : List ClientRecord :=
  s.clients.map (·.2)

/-- Everything a handler can emit to a socket.  `closeTransport` and
`errorReply` are part of the vocabulary of conceivable effects (closing a
participant's transport, replying with an error code); the translated
handlers show which of these the source actually produces. -/
inductive Msg
  | newViewer (target viewerSocketId : String)
  | clientsUpdate (list : List ClientRecord)
  | clientConfig (target : String) (record : ClientRecord)
  | regionUpdate (target clientId : String) (region : Option Rect)
  | viewerAnswerMsg (target viewerId : String) (answer : Nat)
  | viewerIceMsg (target viewerId : String) (candidate : Nat)
  | broadcasterOfferMsg (target : String) (offer : Nat)
  | broadcasterIceMsg (target : String) (candidate : Nat)
  | viewerDisconnectMsg (target viewerSocketId : String)
  | closeTransport (transportId : String)
  | errorReply (target code : String)
deriving DecidableEq, Repr

/-- `register-as-broadcaster` (server.js 32-51): if the registering socket
is not already the broadcaster, overwrite the slot and send the new
broadcaster a `new-viewer` for every connected client.  Nothing is sent to
or done with the previous broadcaster. -/
def registerAsBroadcaster (s : ServerState) (socketId : String) :
    ServerState × List Msg :=
  if s.broadcaster ≠ some socketId then
    let s' : ServerState := { s with broadcaster := some socketId }
    let msgs := s.clients.filterMap fun kv =>
      if kv.2.socketId ≠ "" ∧ kv.2.connected then
        some (Msg.newViewer socketId kv.2.socketId)
      else none
    (s', msgs)
  else (s, [])

/-- Payload of `register-as-viewer`.  The handler spreads the whole payload
into the record (`{...clients[clientId], ...config, socketId, connected}`);
the in-repo viewer sends back its full config, so the payload may carry a
`region` and a `name`/displayName alongside the clientId.  A `none` field
models an absent key (no overwrite). -/
structure RegPayload where
  clientId : String
  displayName : Option String
  region : Option Rect
deriving DecidableEq, Repr

/-- `register-as-viewer` (server.js 54-81). -/
def registerAsViewer (s : ServerState) (socketId : String) (p : RegPayload) :
    ServerState × List Msg :=
  if p.clientId = "" then (s, [])
  else
    let base : ClientRecord :=
      match lookupClient s.clients p.clientId with
      | some r => r
      | none =>
        { clientId := p.clientId, socketId := "", connected := false
          region := none, displayName := none }
    let merged : ClientRecord :=
      { clientId := p.clientId
        socketId := socketId
        connected := true
        region := match p.region with | some r => some r | none => base.region
        displayName :=
          match p.displayName with | some d => some d | none => base.displayName }
    let s' : ServerState := { s with clients := setClient s.clients p.clientId merged }
    let notify :=
      match s.broadcaster with
      | some b => [Msg.newViewer b socketId]
      | none => []
    (s', notify ++ [Msg.clientsUpdate (roster s')])

/-- `get-client-config` (server.js 84-114): creates a record with the
default full-frame region when the clientId is unknown, otherwise rebinds
socketId and marks connected; then sends the record to the requester and a
roster update to everyone. -/
def getClientConfig (s : ServerState) (socketId clientId : String) :
    ServerState × List Msg :=
  match lookupClient s.clients clientId with
  | none =>
    let r0 : ClientRecord :=
      { clientId := clientId, socketId := socketId, connected := true
        region := some defaultRegion, displayName := none }
    let s' : ServerState := { s with clients := setClient s.clients clientId r0 }
    (s', [Msg.clientConfig socketId r0, Msg.clientsUpdate (roster s')])
  | some r =>
    let r' : ClientRecord := { r with socketId := socketId, connected := true }
    let s' : ServerState := { s with clients := setClient s.clients clientId r' }
    (s', [Msg.clientConfig socketId r', Msg.clientsUpdate (roster s')])

/-- Payload of `update-client-config`'s `config` field.  The outer option
models key presence; `region := some none` is an explicit `region: null`. -/
structure ConfigUpdate where
  region : Option (Option Rect)
  displayName : Option String
deriving DecidableEq, Repr

/-- Spread `{...prev, ...config}`. -/
def mergeConfig (prev : ClientRecord) (c : ConfigUpdate) : ClientRecord :=
  { prev with
    region := match c.region with | some v => v | none => prev.region
    displayName :=
      match c.displayName with | some d => some d | none => prev.displayName }

/-- `update-client-config` (server.js 122-137): if the record exists, merge
the config verbatim, send `client-config` to the client's socket and a
roster update; if the clientId is unknown, do nothing at all. -/
def updateClientConfig (s : ServerState) (clientId : String) (c : ConfigUpdate) :
    ServerState × List Msg :=
  match lookupClient s.clients clientId with
  | none => (s, [])
  | some prev =>
    let merged := mergeConfig prev c
    let s' : ServerState := { s with clients := setClient s.clients clientId merged }
    let toClient :=
      if merged.socketId ≠ "" then [Msg.clientConfig merged.socketId merged] else []
    (s', toClient ++ [Msg.clientsUpdate (roster s')])

/-- The `hasSignificantChange` test of the optimized handler
(server.ts 197-205): any coordinate moved by more than 2 pixels, or the
total dimensions changed. -/
def hasSignificantChange (newR prevR : Rect) : Bool :=
  (newR.x - prevR.x).natAbs > 2 ∨
  (newR.y - prevR.y).natAbs > 2 ∨
  (newR.width - prevR.width).natAbs > 2 ∨
  (newR.height - prevR.height).natAbs > 2 ∨
  newR.totalWidth ≠ prevR.totalWidth ∨
  newR.totalHeight ≠ prevR.totalHeight

/-- `update-client-config`, optimized variant (server.ts 177-234).  A
region-only update on a record that already has a region always emits one
`clients-update`, then stops if the change is not significant; otherwise,
and for every other update shape, a further `clients-update` is emitted
only when the record's socketId is truthy and it is connected. -/
def updateClientConfigOpt (s : ServerState) (clientId : String) (c : ConfigUpdate) :
    ServerState × List Msg :=
  match lookupClient s.clients clientId with
  | none => (s, [])
  | some prev =>
    match c.region, c.displayName, prev.region with
    | some (some newR), none, some prevR =>
      let merged := mergeConfig prev c
      let s' : ServerState := { s with clients := setClient s.clients clientId merged }
      if ¬ hasSignificantChange newR prevR then
        (s', [Msg.clientsUpdate (roster s')])
      else if merged.socketId ≠ "" ∧ merged.connected then
        (s', [Msg.clientsUpdate (roster s'), Msg.clientsUpdate (roster s')])
      else
        (s', [Msg.clientsUpdate (roster s')])
    | _, _, _ =>
      let merged := mergeConfig prev c
      let s' : ServerState := { s with clients := setClient s.clients clientId merged }
      if merged.socketId ≠ "" ∧ merged.connected then
        (s', [Msg.clientsUpdate (roster s')])
      else
        (s', [])

/-- `update-client-config`, second server.ts variant (lines 490-516):
merge verbatim; a truthy `config.region` is sent to the client as a
dedicated `region-update`, other updates as full `client-config`; always
ends with a roster update. -/
def updateClientConfigTs2 (s : ServerState) (clientId : String) (c : ConfigUpdate) :
    ServerState × List Msg :=
  match lookupClient s.clients clientId with
  | none => (s, [])
  | some prev =>
    let merged := mergeConfig prev c
    let s' : ServerState := { s with clients := setClient s.clients clientId merged }
    let toClient :=
      match c.region with
      | some (some _) =>
        if merged.socketId ≠ "" then
          [Msg.regionUpdate merged.socketId clientId merged.region]
        else []
      | _ =>
        if merged.socketId ≠ "" then [Msg.clientConfig merged.socketId merged] else []
    (s', toClient ++ [Msg.clientsUpdate (roster s')])

/-- `viewer-answer` (server.js 150-158): forwarded to the broadcaster
tagged with the sender's socket id; dropped when no broadcaster. -/
def viewerAnswerHandler (s : ServerState) (socketId : String) (answer : Nat) :
    ServerState × List Msg :=
  match s.broadcaster with
  | none => (s, [])
  | some b => (s, [Msg.viewerAnswerMsg b socketId answer])

/-- `viewer-ice-candidate` (server.js 170-178): same forwarding shape. -/
def viewerIceHandler (s : ServerState) (socketId : String) (candidate : Nat) :
    ServerState × List Msg :=
  match s.broadcaster with
  | none => (s, [])
  | some b => (s, [Msg.viewerIceMsg b socketId candidate])

/-- `disconnect` (server.js 181-205): clear the broadcaster slot if the
leaving socket was the broadcaster, flip `connected := false` on every
client bound to this socket (notifying the — already updated — broadcaster
slot), then send a roster update. -/
def disconnectHandler (s : ServerState) (socketId : String) :
    ServerState × List Msg :=
  let b' := if s.broadcaster = some socketId then none else s.broadcaster
  let clients' := s.clients.map fun kv =>
    if kv.2.socketId = socketId then (kv.1, { kv.2 with connected := false }) else kv
  let notify := s.clients.filterMap fun kv =>
    if kv.2.socketId = socketId then
      match b' with
      | some b => some (Msg.viewerDisconnectMsg b socketId)
      | none => none
    else none
  let s' : ServerState := { clients := clients', broadcaster := b' }
  (s', notify ++ [Msg.clientsUpdate (roster s')])

/-- Hub-level events, for reasoning about whole interleavings. -/
inductive SEvent
  | regBroadcaster (socketId : String)
  | regViewer (socketId : String) (p : RegPayload)
  | getConfig (socketId clientId : String)
  | updConfig (clientId : String) (c : ConfigUpdate)
  | vAnswer (socketId : String) (answer : Nat)
  | vIce (socketId : String) (candidate : Nat)
  | disc (socketId : String)
deriving DecidableEq, Repr

/-- One dispatch step of the hub. -/
def step (s : ServerState) : SEvent → ServerState × List Msg
  | .regBroadcaster sid => registerAsBroadcaster s sid
  | .regViewer sid p => registerAsViewer s sid p
  | .getConfig sid cid => getClientConfig s sid cid
  | .updConfig cid c => updateClientConfig s cid c
  | .vAnswer sid a => viewerAnswerHandler s sid a
  | .vIce sid c => viewerIceHandler s sid c
  | .disc sid => disconnectHandler s sid

/-- Run a sequence of events, discarding emissions. -/
def runEvents (s : ServerState) : List SEvent → ServerState
  | [] => s
  | e :: rest => runEvents (step s e).1 rest

/-! ## Broadcaster side (`src/admin-view/lib/webrtc.ts`, `useBroadcaster`) -/

/-- Identity of a video track attached to a sender: the broadcaster's
original source track, or a cropped canvas-capture track. -/
inductive TrackRef
  | original
  | cropped (id : Nat)
deriving DecidableEq, Repr

/-- A canvas object with its current pixel dimensions; the id tracks object
identity across resizes. -/
structure CanvasInfo where
  id : Nat
  width : Int
  height : Int
deriving DecidableEq, Repr

/-- The 4-field region stored inside `ConnectionData` (webrtc.ts 16-21). -/
structure CropRegion where
  x : Int
  y : Int
  width : Int
  height : Int
deriving DecidableEq, Repr

/-- The `state` field of `ConnectionData`: 'new' | 'offering' | 'connected'. -/
inductive ConnStage
  | fresh
  | offering
  | connectedStage
deriving DecidableEq, Repr

/-- One entry of the broadcaster's `connections` map, plus the observable
state of its `RTCPeerConnection` (closed flag, signaling state, whether a
remote description has been set, and the video sender's current track). -/
structure ConnData where
  pcId : Nat
  pcClosed : Bool
  sigHaveLocalOffer : Bool
  remoteDescSet : Bool
  stage : ConnStage
  canvas : Option CanvasInfo
  canvasStream : Option Nat
  videoSenderTrack : Option TrackRef
  region : Option CropRegion
  pendingCandidates : List Nat
deriving DecidableEq, Repr

/-- One entry of `clientConfigsRef`: a client's config as the broadcaster
last saw it in a `clients-update`. -/
structure ViewerCfg where
  clientId : String
  socketId : String
  region : Option Rect
deriving DecidableEq, Repr

/-- The broadcaster hook's state: `connections`, whether
`mediaStream.current` is set, the remembered client configs, and a
fresh-identity counter for newly created canvases/streams/connections. -/
structure BState where
  connections : List (String × ConnData)
  mediaStreamPresent : Bool
  clientConfigs : List ViewerCfg
  nextId : Nat
deriving DecidableEq, Repr

/-- Side effects on the peer stack that the broadcaster code performs. -/
inductive BEffect
  | stopTrack (track : TrackRef)
  | replaceTrack (pc : Nat) (newTrack : TrackRef)
  | addTrack (pc : Nat) (track : TrackRef)
  | addIce (pc : Nat) (candidate : Nat)
  | setRemoteDesc (pc : Nat)
  | createOffer (pc : Nat)
  | closePC (pc : Nat)
deriving DecidableEq, Repr

/-- `connectionsRef.current[viewerId]`. -/
def lookupConn : List (String × ConnData) → String → Option ConnData
  | [], _ => none
  | (k, v) :: rest, vid => if k = vid then some v else lookupConn rest vid

/-- Store a connection under a viewerId (update in place or append). -/
def setConn : List (String × ConnData) → String → ConnData →
    List (String × ConnData)
  | [], vid, d => [(vid, d)]
  | (k, v) :: rest, vid, d =>
      if k = vid then (vid, d) :: rest else (k, v) :: setConn rest vid d

/-- `updateClientStream(viewerId, width, height)` (webrtc.ts 200-249):
stop the old canvas stream, create-or-resize the canvas, capture a fresh
30fps stream from it, and `replaceTrack` on the connection's video sender.
The peer connection itself is not touched. -/
def updateClientStream (st : BState) (viewerId : String) (w h : Int) :
    BState × List BEffect
  := match lookupConn st.connections viewerId with
  | none => (st, [])
  | some d =>
    if ¬ st.mediaStreamPresent then (st, [])
    else
      let stopFx := match d.canvasStream with
        | some t => [BEffect.stopTrack (TrackRef.cropped t)]
        | none => []
      let (canvas', n1) : CanvasInfo × Nat :=
        match d.canvas with
        | none => (⟨st.nextId, w, h⟩, st.nextId + 1)
        | some c => (⟨c.id, w, h⟩, st.nextId)
      let streamId := n1
      let (replaceFx, sender') :=
        match d.videoSenderTrack with
        | some _ =>
          ([BEffect.replaceTrack d.pcId (TrackRef.cropped streamId)],
           some (TrackRef.cropped streamId))
        | none => ([], d.videoSenderTrack)
      let d' : ConnData :=
        { d with canvas := some canvas', canvasStream := some streamId
                 videoSenderTrack := sender' }
      let st' : BState :=
        { st with connections := setConn st.connections viewerId d'
                  nextId := n1 + 1 }
      (st', stopFx ++ replaceFx)

/-- `updateRegionForClient(viewerId, region)` (webrtc.ts 170-197): always
store the new crop region; only when the canvas is missing or its
dimensions differ from the new rectangle (and a media stream is present)
is the stream recreated via `updateClientStream`. -/
def updateRegionForClient (st : BState) (viewerId : String) (r : Rect) :
    BState × List BEffect
  := match lookupConn st.connections viewerId with
  | none => (st, [])
  | some d =>
    let needsNewCanvas : Bool :=
      match d.canvas with
      | none => true
      | some c => c.width != r.width || c.height != r.height
    let d' : ConnData :=
      { d with region := some ⟨r.x, r.y, r.width, r.height⟩ }
    let st1 : BState := { st with connections := setConn st.connections viewerId d' }
    if needsNewCanvas ∧ st.mediaStreamPresent then
      updateClientStream st1 viewerId r.width r.height
    else
      (st1, [])

/-- First config in `Object.values(clientConfigsRef.current)` whose
socketId equals the viewerId (webrtc.ts 271-273). -/
def findCfgBySocket : List ViewerCfg → String → Option ViewerCfg
  | [], _ => none
  | c :: rest, vid => if c.socketId = vid then some c else findCfgBySocket rest vid

/-- `handleNewViewer(viewerId)` (webrtc.ts 254-378): skip if a connection
exists; otherwise build a peer connection, attach a cropped canvas track
when the viewer's config has a region and a media stream is present, FALL
BACK to the original full-frame stream tracks when there is no region, and
create an offer (stage 'offering'). -/
def handleNewViewer (st : BState) (viewerId : String) : BState × List BEffect :=
  match lookupConn st.connections viewerId with
  | some _ => (st, [])
  | none =>
    let pcId := st.nextId
    let cfg := findCfgBySocket st.clientConfigs viewerId
    let (canvas?, stream?, sender?, trackFx, n') :
        Option CanvasInfo × Option Nat × Option TrackRef × List BEffect × Nat :=
      match cfg with
      | some c =>
        match c.region with
        | some r =>
          if st.mediaStreamPresent then
            (some ⟨pcId + 1, r.width, r.height⟩, some (pcId + 2),
             some (TrackRef.cropped (pcId + 2)),
             [BEffect.addTrack pcId (TrackRef.cropped (pcId + 2))], pcId + 3)
          else (none, none, none, [], pcId + 1)
        | none =>
          if st.mediaStreamPresent then
            (none, none, some TrackRef.original,
             [BEffect.addTrack pcId TrackRef.original], pcId + 1)
          else (none, none, none, [], pcId + 1)
      | none =>
        if st.mediaStreamPresent then
          (none, none, some TrackRef.original,
           [BEffect.addTrack pcId TrackRef.original], pcId + 1)
        else (none, none, none, [], pcId + 1)
    let d : ConnData :=
      { pcId := pcId, pcClosed := false, sigHaveLocalOffer := true
        remoteDescSet := false, stage := ConnStage.offering
        canvas := canvas?, canvasStream := stream?, videoSenderTrack := sender?
        region := (cfg.bind (·.region)).map fun r => ⟨r.x, r.y, r.width, r.height⟩
        pendingCandidates := [] }
    let st' : BState :=
      { st with connections := setConn st.connections viewerId d, nextId := n' }
    (st', trackFx ++ [BEffect.createOffer pcId])

/-- `handleViewerAnswer({viewerId, answer})` (webrtc.ts 380-431): only in
signaling state 'have-local-offer' is the remote description set; then
every pending ICE candidate is applied in arrival order and the queue is
cleared; the stage becomes 'connected'. -/
def handleViewerAnswer (st : BState) (viewerId : String) : BState × List BEffect :=
  match lookupConn st.connections viewerId with
  | none => (st, [])
  | some d =>
    if d.pcClosed then (st, [])
    else if d.sigHaveLocalOffer then
      let d' : ConnData :=
        { d with remoteDescSet := true, sigHaveLocalOffer := false
                 stage := ConnStage.connectedStage, pendingCandidates := [] }
      let st' : BState := { st with connections := setConn st.connections viewerId d' }
      (st', BEffect.setRemoteDesc d.pcId ::
            d.pendingCandidates.map (BEffect.addIce d.pcId))
    else (st, [])

/-- `handleViewerIceCandidate({viewerId, candidate})` (webrtc.ts 433-479):
with a remote description set, apply immediately; otherwise append the
candidate to `pendingCandidates` — there is no capacity check. -/
def handleViewerIceCandidate (st : BState) (viewerId : String) (candidate : Nat) :
    BState × List BEffect :=
  match lookupConn st.connections viewerId with
  | none => (st, [])
  | some d =>
    if d.pcClosed then (st, [])
    else if d.remoteDescSet then (st, [BEffect.addIce d.pcId candidate])
    else
      let d' : ConnData :=
        { d with pendingCandidates := d.pendingCandidates ++ [candidate] }
      (⟨setConn st.connections viewerId d', st.mediaStreamPresent,
        st.clientConfigs, st.nextId⟩, [])

/-- Feed a list of remote ICE candidates one by one. -/
def feedCandidates (st : BState) (viewerId : String) : List Nat → BState
  | [] => st
  | c :: rest => feedCandidates (handleViewerIceCandidate st viewerId c).1 viewerId rest

/-! ## Viewer page (`ClientView`, src/unnamed/part_002) -/

/-- The `ClientView` component's relevant state: its clientId, the last
received config, and the timestamp of the last applied region update. -/
structure ClientViewState where
  clientId : String
  config : Option ClientRecord
  lastRegionUpdateTime : Int
deriving DecidableEq, Repr

/-- The `region-update` socket handler (part_002 lines 63-85): an update
arriving within 100 ms of the previously APPLIED one is dropped entirely;
otherwise the timestamp is bumped and, if the clientId matches, the region
is stored. -/
def handleRegionUpdateMsg (cs : ClientViewState) (now : Int)
    (updClientId : String) (region : Option Rect) : ClientViewState :=
  if now - cs.lastRegionUpdateTime < 100 then cs
  else
    let cfg' := match cs.config with
      | some cfg =>
        if cfg.clientId = updClientId then some { cfg with region := region }
        else some cfg
      | none => none
    { cs with lastRegionUpdateTime := now, config := cfg' }

/-- The `client-config` socket handler (part_002 lines 57-61): applied
unconditionally — no rate limit and no coalescing. -/
def handleClientConfigMsg (cs : ClientViewState) (cfg : ClientRecord) :
    ClientViewState :=
  { cs with config := some cfg }

/-! ## Map lemmas -/

theorem lookupClient_setClient_self (l : List (String × ClientRecord))
    (cid : String) (r : ClientRecord) :
    lookupClient (setClient l cid r) cid = some r := by
  induction l with
  | nil => simp [setClient, lookupClient]
  | cons kv rest ih =>
    by_cases h : kv.1 = cid
    · simp [setClient, lookupClient, h]
    · simp [setClient, lookupClient, h, ih]

theorem lookupClient_setClient_ne (l : List (String × ClientRecord))
    (cid k : String) (r : ClientRecord) (h : cid ≠ k) :
    lookupClient (setClient l cid r) k = lookupClient l k := by
  induction l with
  | nil => simp [setClient, lookupClient, h]
  | cons kv rest ih =>
    by_cases hk : kv.1 = cid
    · subst hk
      simp [setClient, lookupClient, h]
    · simp [setClient, lookupClient, hk, ih]

theorem lookupConn_setConn_self (l : List (String × ConnData))
    (vid : String) (d : ConnData) :
    lookupConn (setConn l vid d) vid = some d := by
  induction l with
  | nil => simp [setConn, lookupConn]
  | cons kv rest ih =>
    by_cases h : kv.1 = vid
    · simp [setConn, lookupConn, h]
    · simp [setConn, lookupConn, h, ih]

theorem setConn_setConn (l : List (String × ConnData))
    (vid : String) (a b : ConnData) :
    setConn (setConn l vid a) vid b = setConn l vid b := by
  induction l with
  | nil => simp [setConn]
  | cons kv rest ih =>
    by_cases h : kv.1 = vid
    · simp [setConn, h]
    · simp [setConn, h, ih]

theorem lookupClient_map_disconnect (l : List (String × ClientRecord))
    (cid sid : String) :
    lookupClient
      (l.map fun kv =>
        if kv.2.socketId = sid then (kv.1, { kv.2 with connected := false }) else kv)
      cid
    = (lookupClient l cid).map fun c =>
        if c.socketId = sid then { c with connected := false } else c := by
  induction l with
  | nil => simp [lookupClient]
  | cons kv rest ih =>
    obtain ⟨k, v⟩ := kv
    simp only [List.map_cons]
    by_cases hs : v.socketId = sid
    · rw [if_pos hs]
      by_cases hk : k = cid
      · simp [lookupClient, hk, hs]
      · simp [lookupClient, hk, ih]
    · rw [if_neg hs]
      by_cases hk : k = cid
      · simp [lookupClient, hk, hs]
      · simp [lookupClient, hk, ih]

theorem mem_values_of_lookupClient (l : List (String × ClientRecord))
    (cid : String) (v : ClientRecord) (h : lookupClient l cid = some v) :
    v ∈ l.map (·.2) := by
  induction l with
  | nil => simp [lookupClient] at h
  | cons kv rest ih =>
    by_cases hk : kv.1 = cid
    · simp [lookupClient, hk] at h
      simp [h]
    · simp [lookupClient, hk] at h
      simp [ih h]

/-! ## Concrete fixtures used by counterexamples and witnesses -/

def rectA : Rect := ⟨0, 0, 640, 360, 1920, 1080⟩

def rectB : Rect := ⟨100, 200, 640, 360, 1920, 1080⟩

def rectC : Rect := ⟨0, 0, 800, 600, 1920, 1080⟩

/-- A rectangle sticking out of the source: x + width = 3000 > 1920. -/
def rectOver : Rect := ⟨1000, 0, 2000, 500, 1920, 1080⟩

def recWallA : ClientRecord := ⟨"wall-a", "sockV", true, some rectA, none⟩

/-- A hub state with one connected viewer and a registered broadcaster. -/
def sFix : ServerState := ⟨[("wall-a", recWallA)], some "sockB"⟩

/-! ## C1 — broadcaster replacement -/

/-- C1 counterexample: on `sFix` (broadcaster `"sockB"`), a registration by
`"sockB2"` replaces the slot and emits only a `new-viewer` to the new
broadcaster; in particular no `closeTransport "sockB"` is performed, so the
prior broadcaster's transport is NOT closed as the claim asserts. -/
theorem c1_counterexample :
    registerAsBroadcaster sFix "sockB2"
      = ({ sFix with broadcaster := some "sockB2" }, [Msg.newViewer "sockB2" "sockV"])
    ∧ Msg.closeTransport "sockB" ∉ (registerAsBroadcaster sFix "sockB2").2 := by
  decide

/-- C1 (amended): at most one broadcaster is active (a single slot), and a
registration by a different socket replaces the occupant; but the prior
broadcaster's transport is left untouched — every emission of the handler
is a `new-viewer` notification to the new broadcaster, never a close. -/
theorem c1_broadcaster_replaced_not_closed (s : ServerState) (b1 s2 : String)
    (h1 : s.broadcaster = some b1) (h2 : b1 ≠ s2) :
    (registerAsBroadcaster s s2).1.broadcaster = some s2 ∧
    (registerAsBroadcaster s s2).1.clients = s.clients ∧
    ∀ m ∈ (registerAsBroadcaster s s2).2, ∃ v, m = Msg.newViewer s2 v := by
  have hne : s.broadcaster ≠ some s2 := by
    rw [h1]
    intro hx
    exact h2 (Option.some.inj hx)
  unfold registerAsBroadcaster
  rw [if_pos hne]
  refine ⟨rfl, rfl, ?_⟩
  intro m hm
  rcases List.mem_filterMap.mp hm with ⟨kv, _, hf⟩
  by_cases hcond : kv.2.socketId ≠ "" ∧ kv.2.connected
  · rw [if_pos hcond] at hf
    exact ⟨kv.2.socketId, (Option.some.inj hf).symm⟩
  · rw [if_neg hcond] at hf
    cases hf

theorem c1_witness :
    (registerAsBroadcaster sFix "sockB2").1.broadcaster = some "sockB2" ∧
    (registerAsBroadcaster sFix "sockB2").1.clients = sFix.clients :=
  ⟨(c1_broadcaster_replaced_not_closed sFix "sockB" "sockB2" rfl (by decide)).1,
   (c1_broadcaster_replaced_not_closed sFix "sockB" "sockB2" rfl (by decide)).2.1⟩

/-! ## C6 — unknown clientId in update-client-config -/

/-- C6 counterexample: a region update for an unknown clientId leaves the
state unchanged and emits NOTHING — the emission list is empty, so no
`UNKNOWN_VIEWER` error (nor anything else) is returned to the caller. -/
theorem c6_counterexample :
    updateClientConfig ⟨[], none⟩ "ghost" ⟨some (some rectA), none⟩
      = (⟨[], none⟩, []) := by
  decide

/-- C6 (amended): an update naming an unknown clientId is a silent no-op:
state unchanged, no message (and hence no error reply) emitted. -/
theorem c6_unknown_viewer_silent_noop (s : ServerState) (cid : String)
    (c : ConfigUpdate) (h : lookupClient s.clients cid = none) :
    updateClientConfig s cid c = (s, []) := by
  unfold updateClientConfig
  rw [h]

theorem c6_witness :
    updateClientConfig ⟨[], some "bb"⟩ "nobody" ⟨none, some "x"⟩
      = (⟨[], some "bb"⟩, []) :=
  c6_unknown_viewer_silent_noop ⟨[], some "bb"⟩ "nobody" ⟨none, some "x"⟩ rfl

/-! ## C7 — regions are NOT normalized -/

/-- C7 counterexample: updating `wall-a` with a rectangle whose
`x + width = 3000` exceeds the 1920-pixel source width stores the
rectangle verbatim — the roster snapshot returns the unclipped input, not
a clipped one. -/
theorem c7_counterexample :
    roster (updateClientConfig sFix "wall-a" ⟨some (some rectOver), none⟩).1
      = [{ recWallA with region := some rectOver }]
    ∧ rectOver.x + rectOver.width > rectOver.totalWidth := by
  decide

/-- C7 (amended): an accepted region is stored VERBATIM — no rounding and
no clipping — and the roster snapshot returns exactly the input rectangle. -/
theorem c7_region_stored_verbatim (s : ServerState) (cid : String)
    (prev : ClientRecord) (r : Rect) (h : lookupClient s.clients cid = some prev) :
    lookupClient (updateClientConfig s cid ⟨some (some r), none⟩).1.clients cid
      = some { prev with region := some r }
    ∧ { prev with region := some r }
        ∈ roster (updateClientConfig s cid ⟨some (some r), none⟩).1 := by
  unfold updateClientConfig
  rw [h]
  constructor
  · exact lookupClient_setClient_self ..
  · exact mem_values_of_lookupClient _ cid _ (lookupClient_setClient_self ..)

theorem c7_witness :
    lookupClient (updateClientConfig sFix "wall-a" ⟨some (some rectOver), none⟩).1.clients
        "wall-a"
      = some { recWallA with region := some rectOver } :=
  (c7_region_stored_verbatim sFix "wall-a" recWallA rectOver rfl).1

/-! ## C10 — blind forwarding of viewer answers and ICE -/

/-- C10: `viewer-answer` and `viewer-ice-candidate` are forwarded to the
registered broadcaster tagged with the sender's socket id, for ANY sender
and ANY clients map — no check that the sender is a registered, connected
viewer — and are dropped with no state change when no broadcaster is
registered. -/
theorem c10_forward_without_check (s : ServerState) (sender : String)
    (a c : Nat) :
    (∀ b, s.broadcaster = some b →
      viewerAnswerHandler s sender a = (s, [Msg.viewerAnswerMsg b sender a]) ∧
      viewerIceHandler s sender c = (s, [Msg.viewerIceMsg b sender c])) ∧
    (s.broadcaster = none →
      viewerAnswerHandler s sender a = (s, []) ∧
      viewerIceHandler s sender c = (s, [])) := by
  constructor
  · intro b hb
    simp [viewerAnswerHandler, viewerIceHandler, hb]
  · intro hb
    simp [viewerAnswerHandler, viewerIceHandler, hb]

theorem c10_witness :
    viewerAnswerHandler ⟨[], some "bb"⟩ "ghost" 7
      = (⟨[], some "bb"⟩, [Msg.viewerAnswerMsg "bb" "ghost" 7]) ∧
    viewerIceHandler ⟨[], none⟩ "ghost" 3 = (⟨[], none⟩, []) :=
  ⟨((c10_forward_without_check ⟨[], some "bb"⟩ "ghost" 7 3).1 "bb" rfl).1,
   ((c10_forward_without_check ⟨[], none⟩ "ghost" 7 3).2 rfl).2⟩

/-! ## C8 — roster fan-out on region updates (optimized handler) -/

theorem hasSignificantChange_self (r : Rect) : hasSignificantChange r r = false := by
  simp [hasSignificantChange]

/-- C8 counterexample: setting `wall-a`'s region to its current value
still emits a `clients-update` fan-out — the claim that an unchanged value
triggers no roster-changed event is false. -/
theorem c8_counterexample :
    (updateClientConfigOpt sFix "wall-a" ⟨some (some rectA), none⟩).2
      = [Msg.clientsUpdate [recWallA]] := by
  decide

/-- C8 (amended): a region-only update on a record with an existing region
always emits at least one `clients-update` (even when the value is
unchanged), and exactly two when the change is significant (>2 px on some
coordinate, or total dimensions changed) and the record has a truthy
socketId and is connected; an unchanged region yields exactly one. -/
theorem c8_fanout_counts (s : ServerState) (cid : String) (prev : ClientRecord)
    (prevR newR : Rect) (h : lookupClient s.clients cid = some prev)
    (hr : prev.region = some prevR) :
    ((updateClientConfigOpt s cid ⟨some (some newR), none⟩).2.length
       = if hasSignificantChange newR prevR ∧ prev.socketId ≠ "" ∧ prev.connected
         then 2 else 1) ∧
    (newR = prevR →
      (updateClientConfigOpt s cid ⟨some (some newR), none⟩).2
        = [Msg.clientsUpdate
            (roster (updateClientConfigOpt s cid ⟨some (some newR), none⟩).1)]) := by
  constructor
  · by_cases hsig : hasSignificantChange newR prevR
    · by_cases hsock : prev.socketId = ""
      · simp [updateClientConfigOpt, h, hr, mergeConfig, hsig, hsock]
      · by_cases hcon : prev.connected
        · simp [updateClientConfigOpt, h, hr, mergeConfig, hsig, hsock, hcon]
        · simp [updateClientConfigOpt, h, hr, mergeConfig, hsig, hsock, hcon]
    · simp [updateClientConfigOpt, h, hr, mergeConfig, hsig]
  · intro hEq
    subst hEq
    simp [updateClientConfigOpt, h, hr, hasSignificantChange_self]

theorem c8_witness :
    (updateClientConfigOpt sFix "wall-a" ⟨some (some rectB), none⟩).2.length = 2 := by
  have hc := (c8_fanout_counts sFix "wall-a" recWallA rectA rectB rfl rfl).1
  rw [hc]
  decide

/-! ## C2 — region updates are rate-limited, not coalesced-to-latest -/

def csFix : ClientViewState := ⟨"wall-a", some recWallA, 0⟩

/-- C2 counterexample: two region updates 30 ms apart (well within a 50 ms
window). The viewer applies the FIRST and drops the SECOND, so the final
region equals the earlier update, not the latest as the claim requires. -/
theorem c2_counterexample :
    (handleRegionUpdateMsg (handleRegionUpdateMsg csFix 200 "wall-a" (some rectB))
        230 "wall-a" (some rectC)).config
      = some { recWallA with region := some rectB }
    ∧ rectB ≠ rectC ∧ (230 : Int) - 200 ≤ 50 := by
  decide

/-- C2 (amended): the viewer rate-limits `region-update` events — an
update arriving within 100 ms of the last APPLIED one is dropped entirely,
so in a rapid burst the earliest update wins and the final region can
differ from the last one sent; `client-config` events are applied
unconditionally (no rate limit for other event kinds). -/
theorem c2_rate_limited_drops (cs : ClientViewState) (cfg : ClientRecord)
    (cid : String) (t1 t2 : Int) (r1 r2 : Option Rect)
    (hcfg : cs.config = some cfg) (hid : cfg.clientId = cid)
    (h1 : t1 - cs.lastRegionUpdateTime ≥ 100) (h2 : t2 - t1 < 100) :
    (handleRegionUpdateMsg (handleRegionUpdateMsg cs t1 cid r1) t2 cid r2
       = { cs with lastRegionUpdateTime := t1
                   config := some { cfg with region := r1 } }) ∧
    (∀ anyCfg, handleClientConfigMsg cs anyCfg = { cs with config := some anyCfg }) := by
  constructor
  · have hinner : handleRegionUpdateMsg cs t1 cid r1
        = { cs with lastRegionUpdateTime := t1
                    config := some { cfg with region := r1 } } := by
      unfold handleRegionUpdateMsg
      rw [if_neg (by omega)]
      rw [hcfg]
      simp [hid]
    rw [hinner]
    unfold handleRegionUpdateMsg
    rw [if_pos (by simpa using h2)]
  · intro anyCfg
    rfl

theorem c2_witness :
    handleRegionUpdateMsg (handleRegionUpdateMsg csFix 200 "wall-a" (some rectB))
        230 "wall-a" (some rectC)
      = { csFix with lastRegionUpdateTime := 200
                     config := some { recWallA with region := some rectB } } :=
  (c2_rate_limited_drops csFix recWallA "wall-a" 200 230 (some rectB) (some rectC)
    rfl rfl (by decide) (by decide)).1

/-! ## C9 — default region on first config request; full-frame fallback -/

/-- Broadcaster state knowing one client config without a region. -/
def bNoRegion : BState := ⟨[], true, [⟨"wall-b", "vSock", none⟩], 0⟩

/-- C9 counterexample: a config request for an unknown clientId creates a
record whose region is the DEFAULT full frame (not `none`), and the
broadcaster, seeing a viewer without region, attaches the ORIGINAL
full-frame track — both halves of the claim fail. -/
theorem c9_counterexample :
    (lookupClient (getClientConfig ⟨[], none⟩ "s1" "wall-b").1.clients "wall-b").bind
        (·.region)
      = some defaultRegion
    ∧ BEffect.addTrack 0 TrackRef.original ∈ (handleNewViewer bNoRegion "vSock").2 := by
  decide

/-- C9 (amended): a config request for an unknown clientId creates a
record with the default full-frame region `{0,0,1920,1080}` and sends it
to the viewer in `client-config`; and when a viewer's config carries no
region while a media stream is live, the broadcaster falls back to
attaching the original full-frame track. -/
theorem c9_default_region_and_fallback :
    (∀ (s : ServerState) (sid cid : String), lookupClient s.clients cid = none →
      lookupClient (getClientConfig s sid cid).1.clients cid
        = some ⟨cid, sid, true, some defaultRegion, none⟩ ∧
      (getClientConfig s sid cid).2.head?
        = some (Msg.clientConfig sid ⟨cid, sid, true, some defaultRegion, none⟩)) ∧
    (∀ (st : BState) (vid : String) (cfg : ViewerCfg),
      lookupConn st.connections vid = none →
      findCfgBySocket st.clientConfigs vid = some cfg → cfg.region = none →
      st.mediaStreamPresent = true →
      BEffect.addTrack st.nextId TrackRef.original ∈ (handleNewViewer st vid).2) := by
  constructor
  · intro s sid cid h
    unfold getClientConfig
    rw [h]
    exact ⟨lookupClient_setClient_self .., rfl⟩
  · intro st vid cfg hconn hcfg hreg hms
    simp [handleNewViewer, hconn, hcfg, hreg, hms]

theorem c9_witness :
    lookupClient (getClientConfig ⟨[], none⟩ "s2" "wall-c").1.clients "wall-c"
      = some ⟨"wall-c", "s2", true, some defaultRegion, none⟩ ∧
    BEffect.addTrack 0 TrackRef.original ∈ (handleNewViewer bNoRegion "vSock").2 :=
  ⟨(c9_default_region_and_fallback.1 ⟨[], none⟩ "s2" "wall-c" rfl).1,
   c9_default_region_and_fallback.2 bNoRegion "vSock" ⟨"wall-b", "vSock", none⟩
     rfl rfl rfl rfl⟩

/-! ## C4 — viewer identity / region stability across reconnects -/

/-- Events that do not carry a region payload and are not admin region
mutations: broadcaster/viewer registrations with region-free payloads,
config requests, signaling, disconnects. -/
def preservesRegion : SEvent → Bool
  | .regViewer _ p => p.region.isNone
  | .updConfig _ _ => false
  | _ => true

theorem region_preserved_step (s : ServerState) (cid : String) (r : ClientRecord)
    (e : SEvent) (h : lookupClient s.clients cid = some r)
    (he : preservesRegion e = true) :
    ∃ r', lookupClient (step s e).1.clients cid = some r' ∧ r'.region = r.region := by
  cases e with
  | regBroadcaster sid =>
    refine ⟨r, ?_, rfl⟩
    simp only [step, registerAsBroadcaster]
    by_cases hb : s.broadcaster ≠ some sid
    · rw [if_pos hb]
      exact h
    · rw [if_neg hb]
      exact h
  | regViewer sid p =>
    have hpr : p.region = none := by
      simpa [preservesRegion, Option.isNone_iff_eq_none] using he
    by_cases hemp : p.clientId = ""
    · refine ⟨r, ?_, rfl⟩
      simp only [step, registerAsViewer]
      rw [if_pos hemp]
      exact h
    · by_cases hc : p.clientId = cid
      · subst hc
        refine ⟨⟨p.clientId, sid, true, r.region,
                 match p.displayName with | some d => some d | none => r.displayName⟩,
                ?_, rfl⟩
        simp only [step, registerAsViewer, h, hpr]
        rw [if_neg hemp]
        exact lookupClient_setClient_self ..
      · refine ⟨r, ?_, rfl⟩
        simp only [step, registerAsViewer]
        rw [if_neg hemp]
        show lookupClient (setClient s.clients p.clientId _) cid = some r
        rw [lookupClient_setClient_ne _ _ _ _ hc]
        exact h
  | getConfig sid cid2 =>
    by_cases hc : cid2 = cid
    · subst hc
      simp only [step, getClientConfig, h]
      exact ⟨_, lookupClient_setClient_self .., rfl⟩
    · refine ⟨r, ?_, rfl⟩
      cases hl : lookupClient s.clients cid2 with
      | none =>
        simp only [step, getClientConfig, hl]
        rw [lookupClient_setClient_ne _ _ _ _ hc]
        exact h
      | some rec2 =>
        simp only [step, getClientConfig, hl]
        rw [lookupClient_setClient_ne _ _ _ _ hc]
        exact h
  | updConfig cid2 c =>
    simp [preservesRegion] at he
  | vAnswer sid a =>
    refine ⟨r, ?_, rfl⟩
    simp only [step, viewerAnswerHandler]
    cases s.broadcaster <;> exact h
  | vIce sid c =>
    refine ⟨r, ?_, rfl⟩
    simp only [step, viewerIceHandler]
    cases s.broadcaster <;> exact h
  | disc sid =>
    refine ⟨if r.socketId = sid then { r with connected := false } else r, ?_, ?_⟩
    · simp only [step, disconnectHandler]
      rw [lookupClient_map_disconnect, h]
      rfl
    · by_cases hs : r.socketId = sid <;> simp [hs]

theorem region_preserved_run (evs : List SEvent) :
    ∀ (s : ServerState) (cid : String) (r : ClientRecord),
    lookupClient s.clients cid = some r →
    (∀ e ∈ evs, preservesRegion e = true) →
    ∃ r', lookupClient (runEvents s evs).clients cid = some r'
      ∧ r'.region = r.region := by
  induction evs with
  | nil =>
    intro s cid r h _
    exact ⟨r, h, rfl⟩
  | cons e rest ih =>
    intro s cid r h hall
    obtain ⟨r1, h1, hreg1⟩ :=
      region_preserved_step s cid r e h (hall e (List.mem_cons_self _ _))
    obtain ⟨r2, h2, hreg2⟩ :=
      ih (step s e).1 cid r1 h1 (fun e' he' => hall e' (List.mem_cons_of_mem _ he'))
    exact ⟨r2, by simpa [runEvents] using h2, hreg2.trans hreg1⟩

/-- C4 counterexample: `wall-a` holds region `rectA` while disconnected;
the viewer reconnects echoing a stale config that carries region `rectC`.
`register-as-viewer` spreads the payload into the record, so the stored
region becomes `rectC` — region is NOT preserved and the re-registration
touches more than the transport binding and connected flag. -/
theorem c4_counterexample :
    (lookupClient
        (registerAsViewer ⟨[("wall-a", { recWallA with connected := false })], none⟩
          "sock2" ⟨"wall-a", none, some rectC⟩).1.clients "wall-a").map (·.region)
      = some (some rectC)
    ∧ recWallA.region = some rectA ∧ rectA ≠ rectC := by
  decide

/-- C4 (amended): viewer records are never deleted and their region is
preserved under any sequence of connection events whose registration
payloads carry no region; disconnection only flips `connected := false`
(clearing the broadcaster slot when the transport was the broadcaster's);
re-registration with a region-free payload rebinds the socket, marks the
record connected and merges the supplied displayName — the region field is
untouched.  (When a registration payload does carry a region — as the
in-repo viewer's reconnect does — that region overwrites the stored one.) -/
theorem c4_region_preserved (s : ServerState) (cid : String) (r : ClientRecord)
    (evs : List SEvent) (h : lookupClient s.clients cid = some r)
    (hevs : ∀ e ∈ evs, preservesRegion e = true) :
    (∃ r', lookupClient (runEvents s evs).clients cid = some r'
       ∧ r'.region = r.region) ∧
    (∀ sid, lookupClient (disconnectHandler s sid).1.clients cid
        = some (if r.socketId = sid then { r with connected := false } else r)
      ∧ (disconnectHandler s sid).1.broadcaster
        = (if s.broadcaster = some sid then none else s.broadcaster)) ∧
    (∀ sid dn, cid ≠ "" →
      lookupClient (registerAsViewer s sid ⟨cid, dn, none⟩).1.clients cid
        = some ⟨cid, sid, true, r.region,
                match dn with | some d => some d | none => r.displayName⟩) := by
  refine ⟨region_preserved_run evs s cid r h hevs, ?_, ?_⟩
  · intro sid
    constructor
    · simp only [disconnectHandler]
      rw [lookupClient_map_disconnect, h]
      by_cases hs : r.socketId = sid <;> simp [hs]
    · rfl
  · intro sid dn hcid
    simp only [registerAsViewer, h]
    rw [if_neg hcid]
    rw [lookupClient_setClient_self]

theorem c4_witness :
    lookupClient (disconnectHandler sFix "sockV").1.clients "wall-a"
      = some (if recWallA.socketId = "sockV"
              then { recWallA with connected := false } else recWallA) :=
  ((c4_region_preserved sFix "wall-a" recWallA [] rfl (by simp)).2.1 "sockV").1

/-! ## C5 — pending-ICE queue is unbounded -/

theorem feed_appends (vid : String) (cs : List Nat) :
    ∀ (st : BState) (d : ConnData),
    lookupConn st.connections vid = some d →
    d.pcClosed = false → d.remoteDescSet = false →
    lookupConn (feedCandidates st vid cs).connections vid
      = some { d with pendingCandidates := d.pendingCandidates ++ cs } := by
  induction cs with
  | nil =>
    intro st d h _ _
    simpa using h
  | cons c rest ih =>
    intro st d h hc hr
    have hstep : (handleViewerIceCandidate st vid c).1.connections
        = setConn st.connections vid
            { d with pendingCandidates := d.pendingCandidates ++ [c] } := by
      simp only [handleViewerIceCandidate, h, hc, hr]
      rfl
    have h1 : lookupConn (handleViewerIceCandidate st vid c).1.connections vid
        = some { d with pendingCandidates := d.pendingCandidates ++ [c] } := by
      rw [hstep]
      exact lookupConn_setConn_self ..
    have := ih (handleViewerIceCandidate st vid c).1
      { d with pendingCandidates := d.pendingCandidates ++ [c] } h1 hc hr
    simpa [feedCandidates, List.append_assoc] using this

/-- Fixture: one fresh connection awaiting its answer. -/
def dFix : ConnData :=
  { pcId := 0, pcClosed := false, sigHaveLocalOffer := true, remoteDescSet := false
    stage := ConnStage.offering, canvas := none, canvasStream := none
    videoSenderTrack := some TrackRef.original, region := none
    pendingCandidates := [] }

def bIceFix : BState := ⟨[("v1", dFix)], true, [], 1⟩

set_option maxRecDepth 4000 in
/-- C5 counterexample: 65 remote candidates arrive before the answer; ALL
65 are retained, in arrival order, with the oldest (0) still at the head —
nothing is capped at 64 and nothing is dropped. -/
theorem c5_counterexample :
    (lookupConn (feedCandidates bIceFix "v1" (List.range 65)).connections "v1").map
        (·.pendingCandidates)
      = some (List.range 65)
    ∧ 64 < (List.range 65).length := by
  decide

/-- C5 (amended): before the remote description is set, every received
candidate is appended to the pending queue — the queue is unbounded and
drop-free — and on the first answer in state have-local-offer the whole
queue is applied to the peer connection in arrival order and cleared. -/
theorem c5_pending_unbounded_drain (st : BState) (vid : String) (d : ConnData)
    (cs : List Nat) (h : lookupConn st.connections vid = some d)
    (hc : d.pcClosed = false) (hr : d.remoteDescSet = false)
    (hs : d.sigHaveLocalOffer = true) :
    lookupConn (feedCandidates st vid cs).connections vid
      = some { d with pendingCandidates := d.pendingCandidates ++ cs } ∧
    (handleViewerAnswer (feedCandidates st vid cs) vid).2
      = BEffect.setRemoteDesc d.pcId
        :: (d.pendingCandidates ++ cs).map (BEffect.addIce d.pcId) ∧
    lookupConn (handleViewerAnswer (feedCandidates st vid cs) vid).1.connections vid
      = some { d with remoteDescSet := true, sigHaveLocalOffer := false
                      stage := ConnStage.connectedStage, pendingCandidates := [] } := by
  have hfed := feed_appends vid cs st d h hc hr
  refine ⟨hfed, ?_, ?_⟩
  · simp only [handleViewerAnswer, hfed, hc, hs]
    rfl
  · simp only [handleViewerAnswer, hfed, hc, hs]
    show lookupConn (setConn _ vid _) vid = _
    rw [lookupConn_setConn_self]

theorem c5_witness :
    lookupConn (feedCandidates bIceFix "v1" [1, 2, 3]).connections "v1"
      = some { dFix with pendingCandidates := [1, 2, 3] } :=
  (c5_pending_unbounded_drain bIceFix "v1" dFix [1, 2, 3] rfl rfl rfl rfl).1

/-! ## C3 — live region re-bind -/

theorem updateClientStream_effects (st : BState) (vid : String) (w h : Int)
    (e : BEffect) (he : e ∈ (updateClientStream st vid w h).2) :
    (∃ t, e = BEffect.stopTrack t) ∨ ∃ p t, e = BEffect.replaceTrack p t := by
  unfold updateClientStream at he
  cases hl : lookupConn st.connections vid with
  | none =>
    simp only [hl] at he
    exact absurd he (List.not_mem_nil e)
  | some d =>
    simp only [hl] at he
    by_cases hm : st.mediaStreamPresent = true
    · rw [if_neg (by simp [hm])] at he
      cases hcs : d.canvasStream <;> cases hvs : d.videoSenderTrack <;>
          simp only [hcs, hvs, List.mem_append, List.mem_cons,
            List.not_mem_nil, or_false, false_or] at he <;>
        aesop
    · rw [if_pos (by simp [hm])] at he
      exact absurd he (List.not_mem_nil e)

/-- C3: with a connection whose canvas is bound to `w × h`, (a) a region
update with the SAME dimensions only re-stores the crop offset — the
canvas, derived track, sender and peer connection are untouched and no
effect at all is performed; (b) a region update with DIFFERENT dimensions
stops the old cropped track, resizes the same canvas, captures a fresh
track and swaps it on the existing sender of the SAME peer connection;
(c) no region update ever creates an offer or closes a peer connection —
no renegotiation, no connection churn. -/
theorem c3_region_update_paths (st : BState) (vid : String) (d : ConnData)
    (cid0 : Nat) (w h : Int) (t0 : Nat) (tr0 : TrackRef)
    (hconn : lookupConn st.connections vid = some d)
    (hcanvas : d.canvas = some ⟨cid0, w, h⟩)
    (hstream : d.canvasStream = some t0)
    (hsender : d.videoSenderTrack = some tr0) :
    (∀ r : Rect, r.width = w → r.height = h →
      updateRegionForClient st vid r
        = (⟨setConn st.connections vid
              ({ d with region := some ⟨r.x, r.y, r.width, r.height⟩ }),
            st.mediaStreamPresent, st.clientConfigs, st.nextId⟩, [])) ∧
    (∀ r : Rect, st.mediaStreamPresent = true → (r.width ≠ w ∨ r.height ≠ h) →
      updateRegionForClient st vid r
        = (⟨setConn st.connections vid
              ({ d with region := some ⟨r.x, r.y, r.width, r.height⟩,
                        canvas := some ⟨cid0, r.width, r.height⟩,
                        canvasStream := some st.nextId,
                        videoSenderTrack := some (TrackRef.cropped st.nextId) }),
            st.mediaStreamPresent, st.clientConfigs, st.nextId + 1⟩,
           [BEffect.stopTrack (TrackRef.cropped t0),
            BEffect.replaceTrack d.pcId (TrackRef.cropped st.nextId)])) ∧
    (∀ (r : Rect) (p : Nat),
      BEffect.createOffer p ∉ (updateRegionForClient st vid r).2 ∧
      BEffect.closePC p ∉ (updateRegionForClient st vid r).2) := by
  refine ⟨?_, ?_, ?_⟩
  · intro r hw hh
    subst hw
    subst hh
    simp [updateRegionForClient, hconn, hcanvas]
  · intro r hms hne
    have hneed : (match d.canvas with
        | none => true
        | some c => c.width != r.width || c.height != r.height) = true := by
      rw [hcanvas]
      rcases hne with h1 | h1 <;> simp [bne_iff_ne] <;>
        first
          | exact Or.inl (Ne.symm h1)
          | exact Or.inr (Ne.symm h1)
    simp [updateRegionForClient, updateClientStream, hconn, hcanvas, hstream,
      hsender, hneed, hms, lookupConn_setConn_self, setConn_setConn]
    rcases hne with h1 | h1
    · intro h2
      exact absurd h2.symm h1
    · intro _
      exact fun hx => h1 hx.symm
  · intro r p
    have key : ∀ e ∈ (updateRegionForClient st vid r).2,
        (∃ t, e = BEffect.stopTrack t) ∨ ∃ q t, e = BEffect.replaceTrack q t := by
      intro e he
      simp only [updateRegionForClient, hconn] at he
      by_cases hcond : ((match d.canvas with
          | none => true
          | some c => c.width != r.width || c.height != r.height) = true
            ∧ st.mediaStreamPresent = true)
      · rw [if_pos hcond] at he
        exact updateClientStream_effects _ _ _ _ e he
      · rw [if_neg hcond] at he
        exact absurd he (List.not_mem_nil e)
    constructor
    · intro hmem
      rcases key _ hmem with ⟨t, ht⟩ | ⟨q, t, ht⟩ <;> simp at ht
    · intro hmem
      rcases key _ hmem with ⟨t, ht⟩ | ⟨q, t, ht⟩ <;> simp at ht

/-- Fixture for C3: a connected session with a 640×360 canvas. -/
def dC3 : ConnData :=
  { pcId := 5, pcClosed := false, sigHaveLocalOffer := false, remoteDescSet := true
    stage := ConnStage.connectedStage, canvas := some ⟨7, 640, 360⟩
    canvasStream := some 8, videoSenderTrack := some (TrackRef.cropped 8)
    region := some ⟨0, 0, 640, 360⟩, pendingCandidates := [] }

def bC3 : BState := ⟨[("v1", dC3)], true, [], 9⟩

theorem c3_witness :
    updateRegionForClient bC3 "v1" rectB
      = (⟨setConn bC3.connections "v1"
            ({ dC3 with region := some ⟨100, 200, 640, 360⟩ }),
          bC3.mediaStreamPresent, bC3.clientConfigs, bC3.nextId⟩, []) :=
  (c3_region_update_paths bC3 "v1" dC3 7 640 360 8 (TrackRef.cropped 8)
    rfl rfl rfl rfl).1 rectB rfl rfl

end TvWall
